import Mathlib

/-
Verification development for the posture-analysis core of the focusapp
repository. The definitions below are a shallow embedding of the code in
src/lib/mediapipe-pose.ts (the MediaPipePoseDetector class) and of the
change filter in the usePosture hook. Floating point numbers are modelled
as real numbers; JavaScript Math.atan2 is modelled by an explicit
piecewise atan2 over the reals. Mutation of the detector object is
modelled by explicit state passing: every operation takes a DetectorState
and returns the updated state.
-/

set_option maxHeartbeats 1000000

noncomputable section

namespace FocusApp

/-- One MediaPipe landmark: normalized coordinates plus an optional
visibility score. A missing visibility is read as 0 by the source
(the JavaScript expression uses visibility or-else 0). -/
structure Landmark where
  x : ℝ
  y : ℝ
  z : ℝ
  visibility : Option ℝ

/-- A landmark frame: exactly 33 landmarks indexed by the fixed MediaPipe
role indices. -/
def PoseLandmarks : Type := Fin 33 → Landmark

/-- Models the JavaScript expression reading visibility with default 0. -/
def visOrZero (l : Landmark) : ℝ := l.visibility.getD 0

-- Landmark indices used by the detector (LANDMARK_INDICES in the source).
def NOSE : Fin 33 := ⟨0, by norm_num⟩

def LEFT_EYE : Fin 33 := ⟨2, by norm_num⟩

def RIGHT_EYE : Fin 33 := ⟨5, by norm_num⟩

def LEFT_EAR : Fin 33 := ⟨7, by norm_num⟩

def RIGHT_EAR : Fin 33 := ⟨8, by norm_num⟩

def LEFT_SHOULDER : Fin 33 := ⟨11, by norm_num⟩

def RIGHT_SHOULDER : Fin 33 := ⟨12, by norm_num⟩

-- POSTURE_THRESHOLDS constants from the source.
def SLOUCH_ANGLE_THRESHOLD : ℝ := 40

def HEAD_TILT_THRESHOLD : ℝ := 20

def HEAD_TURN_THRESHOLD : ℝ := 30

def EYE_VISIBILITY_THRESHOLD : ℝ := 0.6

def CONFIDENCE_THRESHOLD : ℝ := 0.6

-- Temporal smoothing constants from the source.
def SMOOTHING_WINDOW_SIZE : ℕ := 5

def DEVIATION_THRESHOLD_MULTIPLIER : ℝ := 1.5

/-- Calibration baseline stored by the detector (CalibrationBaseline in
the source). -/
structure CalibrationBaseline where
  slouchAngle : ℝ
  headTiltAngle : ℝ
  shoulderAlignment : ℝ
  shoulderHeight : ℝ
  headYaw : ℝ
  headPitch : ℝ
  timestamp : ℝ

/-- The mutable fields of the detector that the analysed claims touch:
the calibration baseline and the six smoothing buffers. -/
structure DetectorState where
  calibrationBaseline : Option CalibrationBaseline
  slouchAngles : List ℝ
  headTiltAngles : List ℝ
  shoulderAlignments : List ℝ
  shoulderHeights : List ℝ
  headYaws : List ℝ
  headPitches : List ℝ

/-- Posture issue classification values (PostureIssueType in the source). -/
inductive PostureIssueType where
  | goodPosture
  | slouching
  | lookingAway
  | lookingDown
  | noPerson
deriving DecidableEq

/-- Analysis record returned per frame (PostureAnalysis in the source).
Note the source returns the five smoothed angle metrics but not the
shoulder height. -/
structure PostureAnalysis where
  type : PostureIssueType
  confidence : ℝ
  slouchAngle : ℝ
  headTiltAngle : ℝ
  shoulderAlignment : ℝ
  headYaw : ℝ
  headPitch : ℝ

/-- JavaScript Math.atan2 over the reals (no signed zero: atan2 0 0 = 0,
and atan2 0 x = pi for negative x). Every call site in the source has a
positive second argument except calculateShoulderAlignment, whose second
argument is a nonnegative absolute value. -/
def atan2 (y x : ℝ) : ℝ :=
  if 0 < x then Real.arctan (y / x)
  else if x < 0 then
    if 0 ≤ y then Real.arctan (y / x) + Real.pi
    else Real.arctan (y / x) - Real.pi
  else
    if 0 < y then Real.pi / 2
    else if y < 0 then -(Real.pi / 2)
    else 0

/-- Craniovertebral angle: calculateSlouchAngle in the source. -/
def calculateSlouchAngle (leftShoulder rightShoulder leftEar rightEar :
    Landmark) : ℝ :=
  let earMidX := (leftEar.x + rightEar.x) / 2
  let earMidY := (leftEar.y + rightEar.y) / 2
  let shoulderMidX := (leftShoulder.x + rightShoulder.x) / 2
  let shoulderMidY := (leftShoulder.y + rightShoulder.y) / 2
  let horizontalDistance := |earMidX - shoulderMidX|
  let verticalDistance := shoulderMidY - earMidY
  atan2 verticalDistance (horizontalDistance + 0.01) * 180 / Real.pi

/-- Nose based sagittal head tilt fallback: calculateHeadTilt in the
source. -/
def calculateHeadTilt (nose leftShoulder rightShoulder : Landmark) : ℝ :=
  let shoulderY := (leftShoulder.y + rightShoulder.y) / 2
  let headDrop := nose.y - shoulderY
  let normalizedDrop := headDrop / 0.15
  normalizedDrop * 20

/-- Eye based sagittal head tilt: calculateSagittalHeadTilt in the
source. -/
def calculateSagittalHeadTilt (leftEye rightEye leftEar rightEar :
    Landmark) : ℝ :=
  let eyeMidY := (leftEye.y + rightEye.y) / 2
  let eyeMidZ := (leftEye.z + rightEye.z) / 2
  let earMidY := (leftEar.y + rightEar.y) / 2
  let earMidZ := (leftEar.z + rightEar.z) / 2
  let dz := |eyeMidZ - earMidZ| + 0.01
  let dy := eyeMidY - earMidY
  atan2 dy dz * 180 / Real.pi

/-- Shoulder levelness angle: calculateShoulderAlignment in the source. -/
def calculateShoulderAlignment (leftShoulder rightShoulder : Landmark) :
    ℝ :=
  let heightDifference := leftShoulder.y - rightShoulder.y
  let horizontalDistance := |leftShoulder.x - rightShoulder.x|
  let angleDegrees :=
    atan2 (|heightDifference|) horizontalDistance * 180 / Real.pi
  if 0 < heightDifference then angleDegrees else -angleDegrees

/-- Mean shoulder vertical coordinate: calculateShoulderHeight in the
source. -/
def calculateShoulderHeight (leftShoulder rightShoulder : Landmark) : ℝ :=
  (leftShoulder.y + rightShoulder.y) / 2

/-- Head yaw and pitch: calculateHeadOrientation in the source. -/
def calculateHeadOrientation (landmarks : PoseLandmarks) : ℝ × ℝ :=
  let nose := landmarks NOSE
  let leftEye := landmarks LEFT_EYE
  let rightEye := landmarks RIGHT_EYE
  let leftEar := landmarks LEFT_EAR
  let rightEar := landmarks RIGHT_EAR
  let faceCenterX := (leftEye.x + rightEye.x + nose.x) / 3
  let faceCenterZ := (leftEye.z + rightEye.z + nose.z) / 3
  let earCenterX := (leftEar.x + rightEar.x) / 2
  let earCenterZ := (leftEar.z + rightEar.z) / 2
  let horizontalOffset := faceCenterX - earCenterX
  let depthDifference := |faceCenterZ - earCenterZ|
  let yaw := atan2 horizontalOffset (depthDifference + 0.01) * 180 / Real.pi
  let earCenterY := (leftEar.y + rightEar.y) / 2
  let eyeCenterY := (leftEye.y + rightEye.y) / 2
  let eyeCenterZ := (leftEye.z + rightEye.z) / 2
  let verticalDifference := eyeCenterY - earCenterY
  let depthForPitch := |earCenterZ - eyeCenterZ| + 0.01
  let pitch := atan2 verticalDifference depthForPitch * 180 / Real.pi
  (yaw, pitch)

/-- The eyesVisible flag of analyzeEyeVisibility in the source: both eyes
must individually exceed the eye visibility threshold. -/
abbrev eyesVisible (landmarks : PoseLandmarks) : Prop :=
  visOrZero (landmarks LEFT_EYE) > EYE_VISIBILITY_THRESHOLD ∧
  visOrZero (landmarks RIGHT_EYE) > EYE_VISIBILITY_THRESHOLD

/-- The hasGoodVisibility gate of analyzePosture in the source: nose,
both shoulders and both ears must exceed the confidence threshold. -/
abbrev hasGoodVisibility (landmarks : PoseLandmarks) : Prop :=
  visOrZero (landmarks NOSE) > CONFIDENCE_THRESHOLD ∧
  visOrZero (landmarks LEFT_SHOULDER) > CONFIDENCE_THRESHOLD ∧
  visOrZero (landmarks RIGHT_SHOULDER) > CONFIDENCE_THRESHOLD ∧
  visOrZero (landmarks LEFT_EAR) > CONFIDENCE_THRESHOLD ∧
  visOrZero (landmarks RIGHT_EAR) > CONFIDENCE_THRESHOLD

/-- The hasGoodVisibility gate of calibrate in the source: additionally
requires both eyes above the confidence threshold. -/
abbrev calibrateVisibility (landmarks : PoseLandmarks) : Prop :=
  visOrZero (landmarks NOSE) > CONFIDENCE_THRESHOLD ∧
  visOrZero (landmarks LEFT_SHOULDER) > CONFIDENCE_THRESHOLD ∧
  visOrZero (landmarks RIGHT_SHOULDER) > CONFIDENCE_THRESHOLD ∧
  visOrZero (landmarks LEFT_EAR) > CONFIDENCE_THRESHOLD ∧
  visOrZero (landmarks RIGHT_EAR) > CONFIDENCE_THRESHOLD ∧
  visOrZero (landmarks LEFT_EYE) > CONFIDENCE_THRESHOLD ∧
  visOrZero (landmarks RIGHT_EYE) > CONFIDENCE_THRESHOLD

/-- Arithmetic mean of a buffer. -/
def bufferMean (l : List ℝ) : ℝ := l.sum / (l.length : ℝ)

/-- addToSmoothingBuffer in the source: append the new value, drop the
oldest value when the length exceeds the window size, and return the
updated buffer together with the mean of its contents. -/
def addToSmoothingBuffer (buffer : List ℝ) (newValue : ℝ) :
    List ℝ × ℝ :=
  let pushed := buffer ++ [newValue]
  let trimmed :=
    if SMOOTHING_WINDOW_SIZE < pushed.length then pushed.tail else pushed
  (trimmed, bufferMean trimmed)

-- Raw (per frame) metrics as computed near the top of analyzePosture.

/-- Raw craniovertebral angle of a frame. -/
def rawSlouchAngle (lm : PoseLandmarks) : ℝ :=
  calculateSlouchAngle (lm LEFT_SHOULDER) (lm RIGHT_SHOULDER)
    (lm LEFT_EAR) (lm RIGHT_EAR)

/-- Raw head tilt of a frame: the eye based sagittal method when the eyes
are visible, the nose based fallback otherwise. -/
def rawHeadTiltAngle (lm : PoseLandmarks) : ℝ :=
  if eyesVisible lm then
    calculateSagittalHeadTilt (lm LEFT_EYE) (lm RIGHT_EYE) (lm LEFT_EAR)
      (lm RIGHT_EAR)
  else
    calculateHeadTilt (lm NOSE) (lm LEFT_SHOULDER) (lm RIGHT_SHOULDER)

/-- Raw shoulder alignment of a frame. -/
def rawShoulderAlignment (lm : PoseLandmarks) : ℝ :=
  calculateShoulderAlignment (lm LEFT_SHOULDER) (lm RIGHT_SHOULDER)

/-- Raw shoulder height of a frame. -/
def rawShoulderHeight (lm : PoseLandmarks) : ℝ :=
  calculateShoulderHeight (lm LEFT_SHOULDER) (lm RIGHT_SHOULDER)

-- Smoothed metrics: each buffer is fed its raw value; the buffers are
-- pairwise disjoint so the six sequential updates of the source commute.

/-- Smoothed slouch angle used by the classification. -/
def sSlouch (s : DetectorState) (lm : PoseLandmarks) : ℝ :=
  (addToSmoothingBuffer s.slouchAngles (rawSlouchAngle lm)).2

/-- Smoothed head tilt used by the classification. -/
def sTilt (s : DetectorState) (lm : PoseLandmarks) : ℝ :=
  (addToSmoothingBuffer s.headTiltAngles (rawHeadTiltAngle lm)).2

/-- Smoothed shoulder alignment used by the classification. -/
def sAlign (s : DetectorState) (lm : PoseLandmarks) : ℝ :=
  (addToSmoothingBuffer s.shoulderAlignments (rawShoulderAlignment lm)).2

/-- Smoothed shoulder height used by the classification. -/
def sHeight (s : DetectorState) (lm : PoseLandmarks) : ℝ :=
  (addToSmoothingBuffer s.shoulderHeights (rawShoulderHeight lm)).2

/-- Smoothed head yaw used by the classification. -/
def sYaw (s : DetectorState) (lm : PoseLandmarks) : ℝ :=
  (addToSmoothingBuffer s.headYaws (calculateHeadOrientation lm).1).2

/-- Smoothed head pitch used by the classification. -/
def sPitch (s : DetectorState) (lm : PoseLandmarks) : ℝ :=
  (addToSmoothingBuffer s.headPitches (calculateHeadOrientation lm).2).2

/-- Detector state after the six buffer updates of analyzePosture. -/
def updatedState (s : DetectorState) (lm : PoseLandmarks) :
    DetectorState where
  calibrationBaseline := s.calibrationBaseline
  slouchAngles := (addToSmoothingBuffer s.slouchAngles (rawSlouchAngle lm)).1
  headTiltAngles :=
    (addToSmoothingBuffer s.headTiltAngles (rawHeadTiltAngle lm)).1
  shoulderAlignments :=
    (addToSmoothingBuffer s.shoulderAlignments (rawShoulderAlignment lm)).1
  shoulderHeights :=
    (addToSmoothingBuffer s.shoulderHeights (rawShoulderHeight lm)).1
  headYaws :=
    (addToSmoothingBuffer s.headYaws (calculateHeadOrientation lm).1).1
  headPitches :=
    (addToSmoothingBuffer s.headPitches (calculateHeadOrientation lm).2).1

/-- The issue decision chain of analyzePosture (the if and else-if chain
after smoothing): eyes-invisible branch first, then the baseline branch,
then the fixed-threshold fallback. Returns the issue and confidence. -/
def determinePosture (s : DetectorState) (lm : PoseLandmarks) :
    PostureIssueType × ℝ :=
  if ¬ eyesVisible lm then
    if |sPitch s lm| > 15 ∨ sTilt s lm > 15 then
      (PostureIssueType.lookingDown, 0.9)
    else
      (PostureIssueType.lookingAway, 0.9)
  else
    match s.calibrationBaseline with
    | some base =>
      if sSlouch s lm < 40 ∨
          |sSlouch s lm - base.slouchAngle| >
            SLOUCH_ANGLE_THRESHOLD * DEVIATION_THRESHOLD_MULTIPLIER then
        (PostureIssueType.slouching,
          min 0.95 (0.6 +
            max (40 - sSlouch s lm) (|sSlouch s lm - base.slouchAngle|) / 10))
      else if |sHeight s lm - base.shoulderHeight| > 0.05 then
        (PostureIssueType.slouching,
          min 0.95 (0.6 + |sHeight s lm - base.shoulderHeight| * 10))
      else if |sYaw s lm - base.headYaw| >
          HEAD_TURN_THRESHOLD * DEVIATION_THRESHOLD_MULTIPLIER then
        (PostureIssueType.lookingAway,
          min 0.95 (0.6 + |sYaw s lm - base.headYaw| / 60))
      else if |sPitch s lm - base.headPitch| >
          HEAD_TILT_THRESHOLD * DEVIATION_THRESHOLD_MULTIPLIER ∨
          |sTilt s lm - base.headTiltAngle| >
            HEAD_TILT_THRESHOLD * DEVIATION_THRESHOLD_MULTIPLIER then
        (PostureIssueType.lookingDown,
          min 0.95 (0.6 +
            max (|sPitch s lm - base.headPitch|)
              (|sTilt s lm - base.headTiltAngle|) / 40))
      else
        (PostureIssueType.goodPosture, 0.9)
    | none =>
      if sSlouch s lm < SLOUCH_ANGLE_THRESHOLD then
        (PostureIssueType.slouching,
          min 0.95 (0.6 + (SLOUCH_ANGLE_THRESHOLD - sSlouch s lm) / 10))
      else if |sYaw s lm| > HEAD_TURN_THRESHOLD then
        (PostureIssueType.lookingAway, min 0.95 (0.6 + |sYaw s lm| / 60))
      else if sTilt s lm > HEAD_TILT_THRESHOLD then
        (PostureIssueType.lookingDown, min 0.95 (0.6 + sTilt s lm / 40))
      else
        (PostureIssueType.goodPosture, 0.9)

/-- createNoPersonAnalysis in the source. -/
def createNoPersonAnalysis : PostureAnalysis where
  type := PostureIssueType.noPerson
  confidence := 0.95
  slouchAngle := 0
  headTiltAngle := 0
  shoulderAlignment := 0
  headYaw := 0
  headPitch := 0

/-- analyzePosture in the source, as a state transformer: the visibility
gate short-circuits to the no-person analysis without touching the
buffers; otherwise raw metrics are computed, pushed through the smoothing
buffers, classified, and returned together with the updated state. -/
def analyzePosture (s : DetectorState) (lm : PoseLandmarks) :
    PostureAnalysis × DetectorState :=
  if hasGoodVisibility lm then
    ({ type := (determinePosture s lm).1
       confidence := (determinePosture s lm).2
       slouchAngle := sSlouch s lm
       headTiltAngle := sTilt s lm
       shoulderAlignment := sAlign s lm
       headYaw := sYaw s lm
       headPitch := sPitch s lm }, updatedState s lm)
  else
    (createNoPersonAnalysis, s)

/-- The per-frame analysis step of detectPose in the source: a frame with
no landmarks is analysed as no-person, otherwise analyzePosture runs. -/
def analyzeFrame (s : DetectorState) (olm : Option PoseLandmarks) :
    PostureAnalysis × DetectorState :=
  match olm with
  | none => (createNoPersonAnalysis, s)
  | some lm => analyzePosture s lm

/-- The failure condition of calibrate in the source. -/
inductive CalibrationError where
  | personNotVisible
deriving DecidableEq

/-- calibrate in the source, as a state transformer taking the current
time: if the seven-landmark visibility gate fails, the source throws
before any assignment, so the state is returned unchanged together with
the error; on success the six metrics are computed directly from the
given frame, stored as the new baseline with the timestamp, and all six
smoothing buffers are emptied. -/
def calibrate (s : DetectorState) (lm : PoseLandmarks) (now : ℝ) :
    DetectorState × Option CalibrationError :=
  if calibrateVisibility lm then
    ({ calibrationBaseline := some
        { slouchAngle := calculateSlouchAngle (lm LEFT_SHOULDER)
            (lm RIGHT_SHOULDER) (lm LEFT_EAR) (lm RIGHT_EAR)
          headTiltAngle := calculateSagittalHeadTilt (lm LEFT_EYE)
            (lm RIGHT_EYE) (lm LEFT_EAR) (lm RIGHT_EAR)
          shoulderAlignment := calculateShoulderAlignment (lm LEFT_SHOULDER)
            (lm RIGHT_SHOULDER)
          shoulderHeight := calculateShoulderHeight (lm LEFT_SHOULDER)
            (lm RIGHT_SHOULDER)
          headYaw := (calculateHeadOrientation lm).1
          headPitch := (calculateHeadOrientation lm).2
          timestamp := now }
       slouchAngles := []
       headTiltAngles := []
       shoulderAlignments := []
       shoulderHeights := []
       headYaws := []
       headPitches := [] }, none)
  else
    (s, some CalibrationError.personNotVisible)

/-- clearCalibration in the source: drops the baseline and empties all
six smoothing buffers. -/
def clearCalibration (_s : DetectorState) : DetectorState where
  calibrationBaseline := none
  slouchAngles := []
  headTiltAngles := []
  shoulderAlignments := []
  shoulderHeights := []
  headYaws := []
  headPitches := []

/-- Detection result wrapper (PoseDetectionResult in the source). -/
structure PoseDetectionResult where
  landmarks : Option PoseLandmarks
  posture : PostureAnalysis
  timestamp : ℝ

-- Change filter constants from the usePosture hook.
def ANGLE_CHANGE_THRESHOLD : ℝ := 2

def CONFIDENCE_CHANGE_THRESHOLD : ℝ := 0.1

def MAX_UPDATE_INTERVAL : ℝ := 1000

/-- hasSignificantChange in the usePosture hook: a first result always
counts as changed; otherwise the type must differ or one of the five
angle metrics or the confidence must move beyond its threshold. -/
def hasSignificantChange (current : PoseDetectionResult)
    (previous : Option PoseDetectionResult) : Prop :=
  match previous with
  | none => True
  | some previous =>
    current.posture.type ≠ previous.posture.type ∨
    |current.posture.slouchAngle - previous.posture.slouchAngle| ≥
      ANGLE_CHANGE_THRESHOLD ∨
    |current.posture.headTiltAngle - previous.posture.headTiltAngle| ≥
      ANGLE_CHANGE_THRESHOLD ∨
    |current.posture.shoulderAlignment - previous.posture.shoulderAlignment| ≥
      ANGLE_CHANGE_THRESHOLD ∨
    |current.posture.headYaw - previous.posture.headYaw| ≥
      ANGLE_CHANGE_THRESHOLD ∨
    |current.posture.headPitch - previous.posture.headPitch| ≥
      ANGLE_CHANGE_THRESHOLD ∨
    |current.posture.confidence - previous.posture.confidence| ≥
      CONFIDENCE_CHANGE_THRESHOLD

/-- The shouldUpdate condition of runDetection in the usePosture hook:
forward when a significant change is detected or at least the maximum
update interval has elapsed since the last forwarded result. -/
def shouldUpdate (current : PoseDetectionResult)
    (previous : Option PoseDetectionResult) (now lastUpdateTime : ℝ) :
    Prop :=
  hasSignificantChange current previous ∨
  now - lastUpdateTime ≥ MAX_UPDATE_INTERVAL

/-- Modelled from the claim wording for comparison with shouldUpdate: the
filter forwards exactly when the type differs from the last forwarded
result, or some angle metric changed by at least 2 degrees, or the
confidence changed by at least 0.1, or at least 1000 ms elapsed; a first
result is always forwarded. -/
def forwardsSpec (current : PoseDetectionResult)
    (previous : Option PoseDetectionResult) (now lastUpdateTime : ℝ) :
    Prop :=
  match previous with
  | none => True
  | some previous =>
    current.posture.type ≠ previous.posture.type ∨
    |current.posture.slouchAngle - previous.posture.slouchAngle| ≥ 2 ∨
    |current.posture.headTiltAngle - previous.posture.headTiltAngle| ≥ 2 ∨
    |current.posture.shoulderAlignment - previous.posture.shoulderAlignment|
      ≥ 2 ∨
    |current.posture.headYaw - previous.posture.headYaw| ≥ 2 ∨
    |current.posture.headPitch - previous.posture.headPitch| ≥ 2 ∨
    |current.posture.confidence - previous.posture.confidence| ≥ 0.1 ∨
    now - lastUpdateTime ≥ 1000

-- Concrete fixtures used by witnesses and counterexamples. The frame
-- below has level geometry, so every angle calculator returns 0 and the
-- shoulder height is 0.3; the nose and eye visibilities are parameters.

/-- A concrete frame with level geometry: nose visibility vN, eye
visibility vE, all other tracked landmarks fully visible. -/
def frameA (vN vE : ℝ) : PoseLandmarks := fun i =>
  if i = NOSE then ⟨0.5, 0.3, 0, some vN⟩
  else if i = LEFT_EYE then ⟨0.45, 0.3, 0, some vE⟩
  else if i = RIGHT_EYE then ⟨0.55, 0.3, 0, some vE⟩
  else if i = LEFT_EAR then ⟨0.4, 0.3, 0, some 1⟩
  else if i = RIGHT_EAR then ⟨0.6, 0.3, 0, some 1⟩
  else if i = LEFT_SHOULDER then ⟨0.3, 0.3, 0, some 1⟩
  else if i = RIGHT_SHOULDER then ⟨0.7, 0.3, 0, some 1⟩
  else ⟨0, 0, 0, none⟩

/-- The freshly constructed detector: no baseline, empty buffers. -/
def initState : DetectorState :=
  ⟨none, [], [], [], [], [], []⟩

lemma frameA_apply_NOSE (vN vE : ℝ) :
    frameA vN vE NOSE = ⟨0.5, 0.3, 0, some vN⟩ := rfl

lemma frameA_apply_LEFT_EYE (vN vE : ℝ) :
    frameA vN vE LEFT_EYE = ⟨0.45, 0.3, 0, some vE⟩ := rfl

lemma frameA_apply_RIGHT_EYE (vN vE : ℝ) :
    frameA vN vE RIGHT_EYE = ⟨0.55, 0.3, 0, some vE⟩ := rfl

lemma frameA_apply_LEFT_EAR (vN vE : ℝ) :
    frameA vN vE LEFT_EAR = ⟨0.4, 0.3, 0, some 1⟩ := rfl

lemma frameA_apply_RIGHT_EAR (vN vE : ℝ) :
    frameA vN vE RIGHT_EAR = ⟨0.6, 0.3, 0, some 1⟩ := rfl

lemma frameA_apply_LEFT_SHOULDER (vN vE : ℝ) :
    frameA vN vE LEFT_SHOULDER = ⟨0.3, 0.3, 0, some 1⟩ := rfl

lemma frameA_apply_RIGHT_SHOULDER (vN vE : ℝ) :
    frameA vN vE RIGHT_SHOULDER = ⟨0.7, 0.3, 0, some 1⟩ := rfl

lemma rawSlouchAngle_frameA (vN vE : ℝ) :
    rawSlouchAngle (frameA vN vE) = 0 := by
  unfold rawSlouchAngle calculateSlouchAngle
  rw [frameA_apply_LEFT_SHOULDER, frameA_apply_RIGHT_SHOULDER,
    frameA_apply_LEFT_EAR, frameA_apply_RIGHT_EAR]
  norm_num [atan2, Real.arctan_zero]

lemma calculateSagittalHeadTilt_frameA (vN vE : ℝ) :
    calculateSagittalHeadTilt (frameA vN vE LEFT_EYE)
      (frameA vN vE RIGHT_EYE) (frameA vN vE LEFT_EAR)
      (frameA vN vE RIGHT_EAR) = 0 := by
  unfold calculateSagittalHeadTilt
  rw [frameA_apply_LEFT_EYE, frameA_apply_RIGHT_EYE,
    frameA_apply_LEFT_EAR, frameA_apply_RIGHT_EAR]
  norm_num [atan2, Real.arctan_zero]

lemma rawHeadTiltAngle_frameA (vN vE : ℝ) :
    rawHeadTiltAngle (frameA vN vE) = 0 := by
  unfold rawHeadTiltAngle
  split
  · exact calculateSagittalHeadTilt_frameA vN vE
  · unfold calculateHeadTilt
    rw [frameA_apply_NOSE, frameA_apply_LEFT_SHOULDER,
      frameA_apply_RIGHT_SHOULDER]
    norm_num

lemma rawShoulderAlignment_frameA (vN vE : ℝ) :
    rawShoulderAlignment (frameA vN vE) = 0 := by
  unfold rawShoulderAlignment calculateShoulderAlignment
  rw [frameA_apply_LEFT_SHOULDER, frameA_apply_RIGHT_SHOULDER]
  norm_num [atan2, Real.arctan_zero]

lemma rawShoulderHeight_frameA (vN vE : ℝ) :
    rawShoulderHeight (frameA vN vE) = 0.3 := by
  unfold rawShoulderHeight calculateShoulderHeight
  rw [frameA_apply_LEFT_SHOULDER, frameA_apply_RIGHT_SHOULDER]
  norm_num

lemma calculateHeadOrientation_frameA (vN vE : ℝ) :
    calculateHeadOrientation (frameA vN vE) = (0, 0) := by
  unfold calculateHeadOrientation
  rw [frameA_apply_NOSE, frameA_apply_LEFT_EYE, frameA_apply_RIGHT_EYE,
    frameA_apply_LEFT_EAR, frameA_apply_RIGHT_EAR]
  norm_num [atan2, Real.arctan_zero]

lemma addToSmoothingBuffer_nil (v : ℝ) :
    addToSmoothingBuffer [] v = ([v], v) := by
  norm_num [addToSmoothingBuffer, bufferMean, SMOOTHING_WINDOW_SIZE]

lemma hasGoodVisibility_frameA (vN vE : ℝ) (h : vN > 0.6) :
    hasGoodVisibility (frameA vN vE) := by
  refine ⟨?_, ?_, ?_, ?_, ?_⟩
  all_goals norm_num [visOrZero, CONFIDENCE_THRESHOLD, frameA_apply_NOSE,
    frameA_apply_LEFT_SHOULDER, frameA_apply_RIGHT_SHOULDER,
    frameA_apply_LEFT_EAR, frameA_apply_RIGHT_EAR]
  all_goals linarith

lemma eyesVisible_frameA_iff (vN vE : ℝ) :
    eyesVisible (frameA vN vE) ↔ vE > 0.6 := by
  show visOrZero (frameA vN vE LEFT_EYE) > EYE_VISIBILITY_THRESHOLD ∧
      visOrZero (frameA vN vE RIGHT_EYE) > EYE_VISIBILITY_THRESHOLD ↔
      vE > 0.6
  rw [frameA_apply_LEFT_EYE, frameA_apply_RIGHT_EYE]
  norm_num [visOrZero, EYE_VISIBILITY_THRESHOLD]

-- Shared bound helper for the confidence formulas.

lemma confBound (t : ℝ) (ht : 0 ≤ t) :
    0.6 ≤ min (0.95 : ℝ) (0.6 + t) ∧ min (0.95 : ℝ) (0.6 + t) ≤ 0.95 :=
  ⟨le_min (by norm_num) (by linarith), min_le_left _ _⟩

/-- Reading off the classification on the good-visibility path. -/
lemma analyzePosture_of_goodVisibility (s : DetectorState)
    (lm : PoseLandmarks) (hv : hasGoodVisibility lm) :
    analyzePosture s lm =
      ({ type := (determinePosture s lm).1
         confidence := (determinePosture s lm).2
         slouchAngle := sSlouch s lm
         headTiltAngle := sTilt s lm
         shoulderAlignment := sAlign s lm
         headYaw := sYaw s lm
         headPitch := sPitch s lm }, updatedState s lm) := by
  unfold analyzePosture
  rw [if_pos hv]

/-- C1: if a frame passes the nose, shoulder and ear visibility gate but
the eyes are not both above the 0.6 visibility threshold, the result is
looking-down with confidence 0.9 when the smoothed head pitch exceeds 15
degrees in absolute value or the smoothed head tilt exceeds 15 degrees,
and looking-away with confidence 0.9 otherwise; it is never good-posture
or slouching, for every detector state, baseline present or not. -/
theorem C1_eyes_invisible_branch (s : DetectorState) (lm : PoseLandmarks)
    (hv : hasGoodVisibility lm) (he : ¬ eyesVisible lm) :
    ((|sPitch s lm| > 15 ∨ sTilt s lm > 15) →
      (analyzePosture s lm).1.type = PostureIssueType.lookingDown ∧
      (analyzePosture s lm).1.confidence = 0.9) ∧
    (¬ (|sPitch s lm| > 15 ∨ sTilt s lm > 15) →
      (analyzePosture s lm).1.type = PostureIssueType.lookingAway ∧
      (analyzePosture s lm).1.confidence = 0.9) ∧
    (analyzePosture s lm).1.type ≠ PostureIssueType.goodPosture ∧
    (analyzePosture s lm).1.type ≠ PostureIssueType.slouching := by
  rw [analyzePosture_of_goodVisibility s lm hv]
  have hdp : determinePosture s lm =
      if |sPitch s lm| > 15 ∨ sTilt s lm > 15 then
        (PostureIssueType.lookingDown, (0.9 : ℝ))
      else (PostureIssueType.lookingAway, (0.9 : ℝ)) := by
    unfold determinePosture
    rw [if_pos he]
  by_cases hc : |sPitch s lm| > 15 ∨ sTilt s lm > 15
  · rw [if_pos hc] at hdp
    exact ⟨fun _ => by simp [hdp], fun h => absurd hc h, by simp [hdp],
      by simp [hdp]⟩
  · rw [if_neg hc] at hdp
    exact ⟨fun h => absurd h hc, fun _ => by simp [hdp], by simp [hdp],
      by simp [hdp]⟩

/-- C1 witness: a concrete frame with invisible eyes and level geometry,
on the fresh detector, classifies as looking-away with confidence 0.9. -/
theorem C1_witness :
    (analyzePosture initState (frameA 1 0)).1.type =
      PostureIssueType.lookingAway ∧
    (analyzePosture initState (frameA 1 0)).1.confidence = 0.9 := by
  have hv : hasGoodVisibility (frameA 1 0) :=
    hasGoodVisibility_frameA 1 0 (by norm_num)
  have he : ¬ eyesVisible (frameA 1 0) := by
    rw [eyesVisible_frameA_iff]
    norm_num
  have hpitch : sPitch initState (frameA 1 0) = 0 := by
    unfold sPitch initState
    rw [calculateHeadOrientation_frameA, addToSmoothingBuffer_nil]
  have htilt : sTilt initState (frameA 1 0) = 0 := by
    unfold sTilt initState
    rw [rawHeadTiltAngle_frameA, addToSmoothingBuffer_nil]
  exact (C1_eyes_invisible_branch initState (frameA 1 0) hv he).2.1
    (by rw [hpitch, htilt]; norm_num)

/-- C2: whenever any of nose, shoulders or ears has visibility below 0.6
(absent visibility reads as 0), the analysis is the no-person result with
confidence 0.95 and all reported angles 0, with no state change; an
absent frame gives the same result. -/
theorem C2_no_person_gate (s : DetectorState) (lm : PoseLandmarks)
    (h : visOrZero (lm NOSE) < 0.6 ∨ visOrZero (lm LEFT_SHOULDER) < 0.6 ∨
      visOrZero (lm RIGHT_SHOULDER) < 0.6 ∨
      visOrZero (lm LEFT_EAR) < 0.6 ∨ visOrZero (lm RIGHT_EAR) < 0.6) :
    analyzeFrame s (some lm) = (createNoPersonAnalysis, s) ∧
    analyzeFrame s none = (createNoPersonAnalysis, s) ∧
    createNoPersonAnalysis.type = PostureIssueType.noPerson ∧
    createNoPersonAnalysis.confidence = 0.95 ∧
    createNoPersonAnalysis.slouchAngle = 0 ∧
    createNoPersonAnalysis.headTiltAngle = 0 ∧
    createNoPersonAnalysis.shoulderAlignment = 0 ∧
    createNoPersonAnalysis.headYaw = 0 ∧
    createNoPersonAnalysis.headPitch = 0 := by
  have hng : ¬ hasGoodVisibility lm := by
    rintro ⟨h1, h2, h3, h4, h5⟩
    simp only [CONFIDENCE_THRESHOLD] at h1 h2 h3 h4 h5
    rcases h with h | h | h | h | h <;> linarith
  refine ⟨?_, rfl, rfl, rfl, rfl, rfl, rfl, rfl, rfl⟩
  show analyzePosture s lm = (createNoPersonAnalysis, s)
  unfold analyzePosture
  rw [if_neg hng]

/-- C2 witness: a frame whose nose visibility is 0 and an absent frame
both produce the no-person analysis and leave the state untouched. -/
theorem C2_witness :
    analyzeFrame initState (some (frameA 0 1)) =
      (createNoPersonAnalysis, initState) ∧
    analyzeFrame initState none = (createNoPersonAnalysis, initState) := by
  have h := C2_no_person_gate initState (frameA 0 1)
    (Or.inl (by norm_num [visOrZero, frameA_apply_NOSE]))
  exact ⟨h.1, h.2.1⟩

lemma addToSmoothingBuffer_single (a v : ℝ) :
    addToSmoothingBuffer [a] v = ([a, v], (a + v) / 2) := by
  norm_num [addToSmoothingBuffer, bufferMean, SMOOTHING_WINDOW_SIZE]

/-- Reading off the decision chain when the eyes are visible and a
baseline is stored. -/
lemma determinePosture_baseline (s : DetectorState) (lm : PoseLandmarks)
    (base : CalibrationBaseline) (hb : s.calibrationBaseline = some base)
    (he : eyesVisible lm) :
    determinePosture s lm =
      (if sSlouch s lm < 40 ∨
          |sSlouch s lm - base.slouchAngle| >
            SLOUCH_ANGLE_THRESHOLD * DEVIATION_THRESHOLD_MULTIPLIER then
        (PostureIssueType.slouching,
          min 0.95 (0.6 +
            max (40 - sSlouch s lm) (|sSlouch s lm - base.slouchAngle|) / 10))
      else if |sHeight s lm - base.shoulderHeight| > 0.05 then
        (PostureIssueType.slouching,
          min 0.95 (0.6 + |sHeight s lm - base.shoulderHeight| * 10))
      else if |sYaw s lm - base.headYaw| >
          HEAD_TURN_THRESHOLD * DEVIATION_THRESHOLD_MULTIPLIER then
        (PostureIssueType.lookingAway,
          min 0.95 (0.6 + |sYaw s lm - base.headYaw| / 60))
      else if |sPitch s lm - base.headPitch| >
          HEAD_TILT_THRESHOLD * DEVIATION_THRESHOLD_MULTIPLIER ∨
          |sTilt s lm - base.headTiltAngle| >
            HEAD_TILT_THRESHOLD * DEVIATION_THRESHOLD_MULTIPLIER then
        (PostureIssueType.lookingDown,
          min 0.95 (0.6 +
            max (|sPitch s lm - base.headPitch|)
              (|sTilt s lm - base.headTiltAngle|) / 40))
      else
        (PostureIssueType.goodPosture, 0.9)) := by
  unfold determinePosture
  rw [if_neg (not_not_intro he), hb]

/-- Reading off the decision chain when the eyes are visible and no
baseline is stored. -/
lemma determinePosture_fallback (s : DetectorState) (lm : PoseLandmarks)
    (hb : s.calibrationBaseline = none) (he : eyesVisible lm) :
    determinePosture s lm =
      (if sSlouch s lm < SLOUCH_ANGLE_THRESHOLD then
        (PostureIssueType.slouching,
          min 0.95 (0.6 + (SLOUCH_ANGLE_THRESHOLD - sSlouch s lm) / 10))
      else if |sYaw s lm| > HEAD_TURN_THRESHOLD then
        (PostureIssueType.lookingAway, min 0.95 (0.6 + |sYaw s lm| / 60))
      else if sTilt s lm > HEAD_TILT_THRESHOLD then
        (PostureIssueType.lookingDown, min 0.95 (0.6 + sTilt s lm / 40))
      else
        (PostureIssueType.goodPosture, 0.9)) := by
  unfold determinePosture
  rw [if_neg (not_not_intro he), hb]

/-- C3: with eyes visible and a baseline stored, the slouching rule is
checked first: a smoothed slouch angle below 40 degrees, or a deviation
from the baseline slouch angle beyond 60 degrees (the 40 degree constant
scaled by the 1.5 multiplier), yields slouching with the stated
confidence, regardless of the shoulder height, yaw, pitch and tilt
metrics, which are never consulted once this rule fires. -/
theorem C3_baseline_slouch_priority (s : DetectorState)
    (lm : PoseLandmarks) (base : CalibrationBaseline)
    (hb : s.calibrationBaseline = some base)
    (hv : hasGoodVisibility lm) (he : eyesVisible lm)
    (hc : sSlouch s lm < 40 ∨
      |sSlouch s lm - base.slouchAngle| >
        SLOUCH_ANGLE_THRESHOLD * DEVIATION_THRESHOLD_MULTIPLIER) :
    (analyzePosture s lm).1.type = PostureIssueType.slouching ∧
    (analyzePosture s lm).1.confidence =
      min 0.95 (0.6 +
        max (40 - sSlouch s lm) (|sSlouch s lm - base.slouchAngle|) / 10) := by
  rw [analyzePosture_of_goodVisibility s lm hv]
  have hdp := determinePosture_baseline s lm base hb he
  rw [if_pos hc] at hdp
  simp [hdp]

def baseZero : CalibrationBaseline := ⟨0, 0, 0, 0.3, 0, 0, 0⟩

def stateC3 : DetectorState := ⟨some baseZero, [70], [], [], [], [], []⟩

/-- C3 witness: on a state whose slouch buffer makes the smoothed slouch
angle 35 degrees and whose baseline slouch angle is 0, the level frame
classifies as slouching with confidence 0.95. -/
theorem C3_witness :
    (analyzePosture stateC3 (frameA 1 1)).1.type =
      PostureIssueType.slouching ∧
    (analyzePosture stateC3 (frameA 1 1)).1.confidence = 0.95 := by
  have hv := hasGoodVisibility_frameA 1 1 (by norm_num)
  have he : eyesVisible (frameA 1 1) :=
    (eyesVisible_frameA_iff 1 1).2 (by norm_num)
  have hsl : sSlouch stateC3 (frameA 1 1) = 35 := by
    unfold sSlouch stateC3
    rw [rawSlouchAngle_frameA]
    show (addToSmoothingBuffer [70] 0).2 = 35
    rw [addToSmoothingBuffer_single]
    norm_num
  have h := C3_baseline_slouch_priority stateC3 (frameA 1 1) baseZero rfl
    hv he (Or.inl (by rw [hsl]; norm_num))
  refine ⟨h.1, ?_⟩
  rw [h.2, hsl]
  have h0 : baseZero.slouchAngle = 0 := rfl
  rw [h0]
  have h1 : |(35 : ℝ) - 0| = 35 := by
    rw [sub_zero]
    exact abs_of_nonneg (by norm_num)
  rw [h1]
  have h2 : max ((40 : ℝ) - 35) 35 = 35 := max_eq_right (by norm_num)
  rw [h2]
  exact min_eq_left (by norm_num)

/-- C4: with eyes visible and no baseline, classification uses the fixed
thresholds in priority order: slouch angle below 40 gives slouching, else
absolute yaw above 30 gives looking-away, else head tilt above 20 gives
looking-down, else good-posture with confidence 0.9, with the stated
confidence formulas. -/
theorem C4_fixed_threshold_fallback (s : DetectorState)
    (lm : PoseLandmarks) (hb : s.calibrationBaseline = none)
    (hv : hasGoodVisibility lm) (he : eyesVisible lm) :
    (sSlouch s lm < 40 →
      (analyzePosture s lm).1.type = PostureIssueType.slouching ∧
      (analyzePosture s lm).1.confidence =
        min 0.95 (0.6 + (40 - sSlouch s lm) / 10)) ∧
    (¬ sSlouch s lm < 40 → |sYaw s lm| > 30 →
      (analyzePosture s lm).1.type = PostureIssueType.lookingAway ∧
      (analyzePosture s lm).1.confidence =
        min 0.95 (0.6 + |sYaw s lm| / 60)) ∧
    (¬ sSlouch s lm < 40 → ¬ |sYaw s lm| > 30 → sTilt s lm > 20 →
      (analyzePosture s lm).1.type = PostureIssueType.lookingDown ∧
      (analyzePosture s lm).1.confidence =
        min 0.95 (0.6 + sTilt s lm / 40)) ∧
    (¬ sSlouch s lm < 40 → ¬ |sYaw s lm| > 30 → ¬ sTilt s lm > 20 →
      (analyzePosture s lm).1.type = PostureIssueType.goodPosture ∧
      (analyzePosture s lm).1.confidence = 0.9) := by
  rw [analyzePosture_of_goodVisibility s lm hv]
  have hdp := determinePosture_fallback s lm hb he
  simp only [SLOUCH_ANGLE_THRESHOLD, HEAD_TURN_THRESHOLD,
    HEAD_TILT_THRESHOLD] at hdp
  refine ⟨fun h1 => ?_, fun h1 h2 => ?_, fun h1 h2 h3 => ?_,
    fun h1 h2 h3 => ?_⟩
  · rw [if_pos h1] at hdp
    simp [hdp]
  · rw [if_neg h1, if_pos h2] at hdp
    simp [hdp]
  · rw [if_neg h1, if_neg h2, if_pos h3] at hdp
    simp [hdp]
  · rw [if_neg h1, if_neg h2, if_neg h3] at hdp
    simp [hdp]

def stateC4a : DetectorState := ⟨none, [70], [], [], [], [], []⟩

def stateC4b : DetectorState := ⟨none, [80], [], [], [], [100], []⟩

/-- C4 witness: with no calibration, a state whose smoothed slouch angle
is 35 degrees classifies as slouching with confidence at least 0.6, and a
state whose smoothed slouch angle is 40 and smoothed yaw is 50 degrees
classifies as looking-away. -/
theorem C4_witness :
    ((analyzePosture stateC4a (frameA 1 1)).1.type =
        PostureIssueType.slouching ∧
      (analyzePosture stateC4a (frameA 1 1)).1.confidence ≥ 0.6) ∧
    (analyzePosture stateC4b (frameA 1 1)).1.type =
      PostureIssueType.lookingAway := by
  have hv := hasGoodVisibility_frameA 1 1 (by norm_num)
  have he : eyesVisible (frameA 1 1) :=
    (eyesVisible_frameA_iff 1 1).2 (by norm_num)
  constructor
  · have hsl : sSlouch stateC4a (frameA 1 1) = 35 := by
      unfold sSlouch stateC4a
      rw [rawSlouchAngle_frameA]
      show (addToSmoothingBuffer [70] 0).2 = 35
      rw [addToSmoothingBuffer_single]
      norm_num
    have h := (C4_fixed_threshold_fallback stateC4a (frameA 1 1) rfl hv
      he).1 (by rw [hsl]; norm_num)
    refine ⟨h.1, ?_⟩
    rw [h.2, hsl]
    have h2 : min (0.95 : ℝ) (0.6 + (40 - 35) / 10) = 0.95 :=
      min_eq_left (by norm_num)
    rw [h2]
    norm_num
  · have hsl : sSlouch stateC4b (frameA 1 1) = 40 := by
      unfold sSlouch stateC4b
      rw [rawSlouchAngle_frameA]
      show (addToSmoothingBuffer [80] 0).2 = 40
      rw [addToSmoothingBuffer_single]
      norm_num
    have hyaw : sYaw stateC4b (frameA 1 1) = 50 := by
      unfold sYaw stateC4b
      rw [calculateHeadOrientation_frameA]
      show (addToSmoothingBuffer [100] 0).2 = 50
      rw [addToSmoothingBuffer_single]
      norm_num
    have h := ((C4_fixed_threshold_fallback stateC4b (frameA 1 1) rfl hv
      he).2.1 (by rw [hsl]; norm_num)) (by
        rw [hyaw]
        norm_num)
    exact h.1

lemma calibrateVisibility_frameA (vN vE : ℝ) (hN : vN > 0.6)
    (hE : vE > 0.6) : calibrateVisibility (frameA vN vE) := by
  refine ⟨?_, ?_, ?_, ?_, ?_, ?_, ?_⟩
  all_goals norm_num [visOrZero, CONFIDENCE_THRESHOLD, frameA_apply_NOSE,
    frameA_apply_LEFT_SHOULDER, frameA_apply_RIGHT_SHOULDER,
    frameA_apply_LEFT_EAR, frameA_apply_RIGHT_EAR,
    frameA_apply_LEFT_EYE, frameA_apply_RIGHT_EYE]
  all_goals linarith

def stateC5 : DetectorState := ⟨none, [10, 20], [], [], [], [], []⟩

/-- C5 counterexample: a successful calibration on a state whose slouch
smoothing buffer holds 10 and 20 (current smoothed slouch 15) against a
frame whose raw slouch angle is 0 stores 0 as the baseline slouch angle,
not the smoothed value 15: the baseline is not a snapshot of the smoothed
metrics at the time of calibration. -/
theorem C5_counterexample :
    (calibrate stateC5 (frameA 1 1) 0).2 = none ∧
    ((calibrate stateC5 (frameA 1 1) 0).1.calibrationBaseline.map
      CalibrationBaseline.slouchAngle) = some 0 ∧
    bufferMean stateC5.slouchAngles = 15 ∧
    ((calibrate stateC5 (frameA 1 1) 0).1.calibrationBaseline.map
      CalibrationBaseline.slouchAngle) ≠
      some (bufferMean stateC5.slouchAngles) := by
  have hcv := calibrateVisibility_frameA 1 1 (by norm_num) (by norm_num)
  have hslouch : calculateSlouchAngle (frameA 1 1 LEFT_SHOULDER)
      (frameA 1 1 RIGHT_SHOULDER) (frameA 1 1 LEFT_EAR)
      (frameA 1 1 RIGHT_EAR) = 0 := rawSlouchAngle_frameA 1 1
  have hmean : bufferMean stateC5.slouchAngles = 15 := by
    show bufferMean [10, 20] = 15
    norm_num [bufferMean]
  have hc : ((calibrate stateC5 (frameA 1 1) 0).1.calibrationBaseline.map
      CalibrationBaseline.slouchAngle) = some 0 := by
    unfold calibrate
    rw [if_pos hcv]
    simp [hslouch]
  refine ⟨?_, hc, hmean, ?_⟩
  · unfold calibrate
    rw [if_pos hcv]
  · rw [hc, hmean]
    simp only [ne_eq, Option.some.injEq]
    norm_num

/-- C5 amended: after every successful calibration, the stored baseline
is a snapshot of the six metrics computed directly from the calibration
frame by the geometry calculators, together with the capture timestamp,
and all six smoothing buffers are empty, so the next pushed value becomes
the full mean. -/
theorem C5_amended_calibrate_snapshot (s : DetectorState)
    (lm : PoseLandmarks) (now : ℝ) (h : calibrateVisibility lm) :
    (calibrate s lm now).2 = none ∧
    (calibrate s lm now).1.calibrationBaseline = some
      { slouchAngle := calculateSlouchAngle (lm LEFT_SHOULDER)
          (lm RIGHT_SHOULDER) (lm LEFT_EAR) (lm RIGHT_EAR)
        headTiltAngle := calculateSagittalHeadTilt (lm LEFT_EYE)
          (lm RIGHT_EYE) (lm LEFT_EAR) (lm RIGHT_EAR)
        shoulderAlignment := calculateShoulderAlignment (lm LEFT_SHOULDER)
          (lm RIGHT_SHOULDER)
        shoulderHeight := calculateShoulderHeight (lm LEFT_SHOULDER)
          (lm RIGHT_SHOULDER)
        headYaw := (calculateHeadOrientation lm).1
        headPitch := (calculateHeadOrientation lm).2
        timestamp := now } ∧
    (calibrate s lm now).1.slouchAngles = [] ∧
    (calibrate s lm now).1.headTiltAngles = [] ∧
    (calibrate s lm now).1.shoulderAlignments = [] ∧
    (calibrate s lm now).1.shoulderHeights = [] ∧
    (calibrate s lm now).1.headYaws = [] ∧
    (calibrate s lm now).1.headPitches = [] ∧
    (∀ v : ℝ, addToSmoothingBuffer [] v = ([v], v)) := by
  unfold calibrate
  rw [if_pos h]
  exact ⟨rfl, rfl, rfl, rfl, rfl, rfl, rfl, rfl,
    fun v => addToSmoothingBuffer_nil v⟩

/-- C5 witness: calibrating the fresh detector on the level frame
succeeds, stores the raw frame metrics as the baseline, and empties every
buffer; pushing 7 into an emptied buffer returns mean 7. -/
theorem C5_witness :
    (calibrate initState (frameA 1 1) 0).2 = none ∧
    (calibrate initState (frameA 1 1) 0).1.slouchAngles = [] ∧
    (calibrate initState (frameA 1 1) 0).1.headTiltAngles = [] ∧
    (calibrate initState (frameA 1 1) 0).1.shoulderAlignments = [] ∧
    (calibrate initState (frameA 1 1) 0).1.shoulderHeights = [] ∧
    (calibrate initState (frameA 1 1) 0).1.headYaws = [] ∧
    (calibrate initState (frameA 1 1) 0).1.headPitches = [] ∧
    addToSmoothingBuffer [] 7 = ([7], 7) := by
  obtain ⟨h1, _, h3, h4, h5, h6, h7, h8, h9⟩ :=
    C5_amended_calibrate_snapshot initState (frameA 1 1) 0
      (calibrateVisibility_frameA 1 1 (by norm_num) (by norm_num))
  exact ⟨h1, h3, h4, h5, h6, h7, h8, h9 7⟩

/-- C6: calibration fails with the person-not-visible error whenever any
of nose, shoulders, ears or eyes has visibility below 0.6, and the state
is returned unchanged: the prior baseline and the smoothing buffers are
untouched. -/
theorem C6_calibrate_failure_preserves_state (s : DetectorState)
    (lm : PoseLandmarks) (now : ℝ)
    (h : visOrZero (lm NOSE) < 0.6 ∨
      visOrZero (lm LEFT_SHOULDER) < 0.6 ∨
      visOrZero (lm RIGHT_SHOULDER) < 0.6 ∨
      visOrZero (lm LEFT_EAR) < 0.6 ∨ visOrZero (lm RIGHT_EAR) < 0.6 ∨
      visOrZero (lm LEFT_EYE) < 0.6 ∨ visOrZero (lm RIGHT_EYE) < 0.6) :
    calibrate s lm now = (s, some CalibrationError.personNotVisible) := by
  have hng : ¬ calibrateVisibility lm := by
    rintro ⟨h1, h2, h3, h4, h5, h6, h7⟩
    simp only [CONFIDENCE_THRESHOLD] at h1 h2 h3 h4 h5 h6 h7
    rcases h with h | h | h | h | h | h | h <;> linarith
  unfold calibrate
  rw [if_neg hng]

def stateC6 : DetectorState := ⟨some baseZero, [1], [2], [3], [4], [5], [6]⟩

/-- C6 witness: a frame whose eyes have visibility 0.5 fails calibration
on a detector that has a baseline and filled buffers, and the returned
state is exactly the input state. -/
theorem C6_witness :
    calibrate stateC6 (frameA 1 0.5) 7 =
      (stateC6, some CalibrationError.personNotVisible) ∧
    stateC6.calibrationBaseline = some baseZero ∧
    stateC6.slouchAngles = [1] := by
  refine ⟨C6_calibrate_failure_preserves_state stateC6 (frameA 1 0.5) 7
    ?_, rfl, rfl⟩
  refine Or.inr (Or.inr (Or.inr (Or.inr (Or.inr (Or.inl ?_)))))
  norm_num [visOrZero, frameA_apply_LEFT_EYE]

/-- C7: the smoothing buffer push appends the new value, evicts the
oldest element exactly when the length exceeds the capacity 5, and
returns the arithmetic mean of the remaining contents; pushing the
sequence 10, 20, 30, 40, 50, 60 into an empty buffer produces the running
means 10, 15, 20, 25, 30, 40, the last over the window 20 to 60. -/
theorem C7_smoothing_buffer_behaviour :
    (∀ (buf : List ℝ) (v : ℝ),
      (addToSmoothingBuffer buf v).1 =
        (if 5 ≤ buf.length then (buf ++ [v]).tail else buf ++ [v]) ∧
      (addToSmoothingBuffer buf v).2 =
        ((addToSmoothingBuffer buf v).1).sum /
          (((addToSmoothingBuffer buf v).1).length : ℝ)) ∧
    addToSmoothingBuffer [] 10 = ([10], 10) ∧
    addToSmoothingBuffer [10] 20 = ([10, 20], 15) ∧
    addToSmoothingBuffer [10, 20] 30 = ([10, 20, 30], 20) ∧
    addToSmoothingBuffer [10, 20, 30] 40 = ([10, 20, 30, 40], 25) ∧
    addToSmoothingBuffer [10, 20, 30, 40] 50 =
      ([10, 20, 30, 40, 50], 30) ∧
    addToSmoothingBuffer [10, 20, 30, 40, 50] 60 =
      ([20, 30, 40, 50, 60], 40) := by
  refine ⟨fun buf v => ⟨?_, rfl⟩, ?_, ?_, ?_, ?_, ?_, ?_⟩
  · show (if SMOOTHING_WINDOW_SIZE < (buf ++ [v]).length then
        (buf ++ [v]).tail else buf ++ [v]) =
      (if 5 ≤ buf.length then (buf ++ [v]).tail else buf ++ [v])
    have hiff : SMOOTHING_WINDOW_SIZE < (buf ++ [v]).length ↔
        5 ≤ buf.length := by
      simp [SMOOTHING_WINDOW_SIZE, Nat.lt_add_one_iff]
    by_cases hlen : 5 ≤ buf.length
    · rw [if_pos (hiff.2 hlen), if_pos hlen]
    · rw [if_neg (fun hl => hlen (hiff.1 hl)), if_neg hlen]
  all_goals norm_num [addToSmoothingBuffer, bufferMean,
    SMOOTHING_WINDOW_SIZE]

/-- C8: clearing the calibration is idempotent: clearing twice equals
clearing once, and the cleared state has no baseline and six empty
smoothing buffers, so clearing when no baseline exists is harmless rather
than an error. -/
theorem C8_clear_calibration_idempotent :
    (∀ s : DetectorState,
      clearCalibration (clearCalibration s) = clearCalibration s) ∧
    (∀ s : DetectorState,
      (clearCalibration s).calibrationBaseline = none ∧
      (clearCalibration s).slouchAngles = [] ∧
      (clearCalibration s).headTiltAngles = [] ∧
      (clearCalibration s).shoulderAlignments = [] ∧
      (clearCalibration s).shoulderHeights = [] ∧
      (clearCalibration s).headYaws = [] ∧
      (clearCalibration s).headPitches = []) :=
  ⟨fun _ => rfl, fun _ => ⟨rfl, rfl, rfl, rfl, rfl, rfl, rfl⟩⟩

/-- C9: the change filter forwards a result exactly when the posture type
differs from the last forwarded result, or one of the five angle metrics
moved by at least 2 degrees, or the confidence moved by at least 0.1, or
at least 1000 ms elapsed since the last forwarded result, and a first
result with no previously forwarded result is always forwarded. -/
theorem C9_change_filter_iff (current : PoseDetectionResult)
    (previous : Option PoseDetectionResult) (now lastUpdateTime : ℝ) :
    shouldUpdate current previous now lastUpdateTime ↔
      forwardsSpec current previous now lastUpdateTime := by
  cases previous with
  | none => simp [shouldUpdate, hasSignificantChange, forwardsSpec]
  | some prev =>
    simp only [shouldUpdate, hasSignificantChange, forwardsSpec,
      ANGLE_CHANGE_THRESHOLD, CONFIDENCE_CHANGE_THRESHOLD,
      MAX_UPDATE_INTERVAL]
    tauto

/-- Confidence bounds of the decision chain: every branch yields a value
between 0.6 and 0.95. -/
lemma determinePosture_conf_bounds (s : DetectorState)
    (lm : PoseLandmarks) :
    0.6 ≤ (determinePosture s lm).2 ∧
    (determinePosture s lm).2 ≤ 0.95 := by
  by_cases he : eyesVisible lm
  · cases hb : s.calibrationBaseline with
    | some base =>
      rw [determinePosture_baseline s lm base hb he]
      split_ifs with h1 h2 h3 h4
      · exact confBound _ (div_nonneg
          (le_trans (abs_nonneg _) (le_max_right _ _)) (by norm_num))
      · exact confBound _ (mul_nonneg (abs_nonneg _) (by norm_num))
      · exact confBound _ (div_nonneg (abs_nonneg _) (by norm_num))
      · exact confBound _ (div_nonneg
          (le_trans (abs_nonneg _) (le_max_left _ _)) (by norm_num))
      · norm_num
    | none =>
      rw [determinePosture_fallback s lm hb he]
      split_ifs with h1 h2 h3
      · exact confBound _ (div_nonneg (sub_nonneg.2 h1.le) (by norm_num))
      · exact confBound _ (div_nonneg (abs_nonneg _) (by norm_num))
      · refine confBound _ (div_nonneg ?_ (by norm_num))
        simp only [HEAD_TILT_THRESHOLD] at h3
        linarith
      · norm_num
  · have hdp : determinePosture s lm =
        if |sPitch s lm| > 15 ∨ sTilt s lm > 15 then
          (PostureIssueType.lookingDown, (0.9 : ℝ))
        else (PostureIssueType.lookingAway, (0.9 : ℝ)) := by
      unfold determinePosture
      rw [if_pos he]
    rw [hdp]
    split_ifs <;> norm_num

/-- C10: for every frame, present or absent, and every detector state,
the confidence of the returned analysis lies between 0.6 and 0.95: issue
branches take the minimum of 0.95 and 0.6 plus a nonnegative term, the
good-posture and eyes-invisible branches use 0.9, and no-person uses
0.95. -/
theorem C10_confidence_range (s : DetectorState)
    (olm : Option PoseLandmarks) :
    0.6 ≤ (analyzeFrame s olm).1.confidence ∧
    (analyzeFrame s olm).1.confidence ≤ 0.95 := by
  cases olm with
  | none =>
    show (0.6 : ℝ) ≤ createNoPersonAnalysis.confidence ∧
      createNoPersonAnalysis.confidence ≤ 0.95
    norm_num [createNoPersonAnalysis]
  | some lm =>
    show 0.6 ≤ (analyzePosture s lm).1.confidence ∧
      (analyzePosture s lm).1.confidence ≤ 0.95
    unfold analyzePosture
    by_cases hv : hasGoodVisibility lm
    · rw [if_pos hv]
      exact determinePosture_conf_bounds s lm
    · rw [if_neg hv]
      norm_num [createNoPersonAnalysis]

end FocusApp

end
